import Mathlib

set_option maxRecDepth 200000
set_option maxHeartbeats 1600000

/-!
Verification of the MuNG class ontology module (src/mung/ontology/mungClasses.ts).

The module holds one static table DEFINITIONS mapping class names to raw
definition records, one derivation function parseMungClassDefinition, and
three views: MUNG_CLASSES (descriptors sorted by class name), MUNG_CLASS_NAMES
(class names in the same order), and MUNG_CLASSES_BY_NAME (a dictionary from
class name to descriptor). All of them are embedded below directly from the
source, with JavaScript truthiness of the optional fields made explicit.
-/

namespace MungOntology

/-- Value of the optional notSmufl field, which TypeScript types as
boolean or string. -/
inductive NotSmuflValue where
  | bool (b : Bool)
  | str (s : String)
deriving DecidableEq

/-- Raw class definition record (TypeScript interface MungClassDefinition).
Constructor argument order: uc, mpp, notSmufl, smuflEquivalents, container,
otherSmuflDivergenceJustification, transcribable. A missing optional field is
none. -/
structure MungClassDefinition where
  uc : String
  mpp : Option Bool
  notSmufl : Option NotSmuflValue
  smuflEquivalents : Option (List String)
  container : Option Bool
  otherSmuflDivergenceJustification : Option String
  transcribable : Option Bool
deriving DecidableEq

/-- Derived class descriptor (the MungClass record returned by
parseMungClassDefinition). The justifiedSmuflDivergence field is an
Option Bool because the source leaves it undefined for SMuFL classes. -/
structure MungClass where
  className : String
  unicode : String
  isSmufl : Bool
  smuflEquivalents : Option (List String)
  isMuscimaPP20 : Bool
  isContainer : Bool
  otherSmuflDivergenceJustification : Option String
  justifiedSmuflDivergence : Option Bool
  isTranscribable : Bool
deriving DecidableEq

/-- JavaScript truthiness of an optional boolean field: a missing field is
falsy, otherwise the boolean itself (the double-bang coercion in the source). -/
def truthyOptBool : Option Bool → Bool
  | none => false
  | some b => b

/-- JavaScript truthiness of a notSmufl value: a boolean is itself, a string
is truthy iff it is non-empty. -/
def NotSmuflValue.truthy : NotSmuflValue → Bool
  | .bool b => b
  | .str s => s != ""

/-- JavaScript truthiness of the optional notSmufl field. -/
def truthyNotSmufl : Option NotSmuflValue → Bool
  | none => false
  | some v => v.truthy

/-- Embedding of parseMungClassDefinition: derives a MungClass descriptor
from a class name and a raw definition, exactly as in the source.
isSmufl is the negation of the truthiness of notSmufl; the divergence
question is left unanswered (none) for SMuFL classes and otherwise answered
by container status, strict-equality transcribability, or the presence of a
justification string. -/
def parseMungClassDefinition (className : String) (d : MungClassDefinition) :
    MungClass :=
  { className := className
    unicode := d.uc
    isSmufl := !truthyNotSmufl d.notSmufl
    smuflEquivalents := d.smuflEquivalents
    isMuscimaPP20 := truthyOptBool d.mpp
    isContainer := truthyOptBool d.container
    otherSmuflDivergenceJustification := d.otherSmuflDivergenceJustification
    justifiedSmuflDivergence :=
      if !truthyNotSmufl d.notSmufl then
        none
      else
        some (truthyOptBool d.container || d.transcribable == some true ||
          d.otherSmuflDivergenceJustification.isSome)
    isTranscribable := truthyOptBool d.transcribable }

/-- Part 1 of the definition table (entries in source order). -/
def DEFINITIONS_1 : List (String × MungClassDefinition) := [
  ("unclassified", ⟨"?", some true, some (.bool true), none, none, none, none⟩),
  ("otherNumericSign", ⟨"?", some true, some (.bool true), none, none, none, none⟩),
  ("ossia", ⟨"?", some true, some (.bool true), none, none, none, none⟩),
  ("rehearsalMark", ⟨"?", some true, some (.bool true), none, none, none, none⟩),
  ("instrumentName", ⟨"Pno", some true, some (.bool true), none, none, none, none⟩),
  ("instrumentSpecific", ⟨"?", some true, some (.bool true), none, none, none, none⟩),
  ("staffGrouping", ⟨"\uE000", some true, some (.bool true), some ["brace", "bracket"], none, none, none⟩),
  ("brace", ⟨"\uE000", some true, none, none, none, none, none⟩),
  ("bracket", ⟨"\uE002", some true, none, none, none, none, none⟩),
  ("systemSeparator", ⟨"\uE007", some true, some (.bool true), some ["systemDivider"], none, none, none⟩),
  ("systemDivider", ⟨"\uE007", none, none, none, none, none, none⟩),
  ("splitBarDivider", ⟨"\uE00A", none, none, none, none, none, none⟩),
  ("custos", ⟨"\uE56C", none, none, none, none, none, none⟩),
  ("staffLine", ⟨"\uE016\u2800", some true, some (.bool true), none, none, some "Cannot be rendered using a font. The staff1Line class is a different thing semantically.", none⟩),
  ("staffSpace", ⟨"\uE011", some true, some (.bool true), none, none, none, none⟩),
  ("staff", ⟨"\uE01A\u2800", some true, none, some ["staff5Lines"], none, none, none⟩),
  ("legerLine", ⟨"\uE022", some true, none, none, none, none, none⟩),
  ("barNumber", ⟨"42", some true, some (.bool true), none, none, none, none⟩),
  ("measureSeparator", ⟨"\uE030", some true, some (.bool true), none, some true, none, none⟩),
  ("barline", ⟨"\uE030", some true, some (.bool true), some ["barlineSingle"], none, none, none⟩),
  ("barlineSingle", ⟨"\uE030", none, none, none, none, none, none⟩),
  ("barlineFinal", ⟨"\uE032", none, none, none, none, none, none⟩),
  ("barlineHeavy", ⟨"\uE034", some true, none, none, none, none, none⟩),
  ("barlineWing", ⟨"\uE002\uE043", none, some (.bool true), none, none, none, none⟩),
  ("repeat", ⟨"\uE042", some true, none, some ["repeatLeft", "repeatRight"], none, none, none⟩),
  ("repeatText", ⟨"D.C.", none, some (.bool true), none, none, none, some true⟩),
  ("volta", ⟨"1.", some true, none, none, some true, none, none⟩),
  ("voltaText", ⟨"1.", none, some (.bool true), none, none, none, some true⟩),
  ("repeatLeft", ⟨"\uE040", none, none, none, none, none, none⟩),
  ("repeatRight", ⟨"\uE041", none, none, none, none, none, none⟩),
  ("repeatDot", ⟨"\uE043", some true, none, none, none, none, none⟩),
  ("segno", ⟨"\uE047", some true, none, none, none, none, none⟩),
  ("coda", ⟨"\uE048", some true, none, none, none, none, none⟩),
  ("segnoSerpent", ⟨"\uE04A", none, some (.bool true), none, none, none, none⟩),
  ("gClef", ⟨"\uE050", some true, none, none, none, none, none⟩),
  ("cClef", ⟨"\uE05C", some true, none, none, none, none, none⟩),
  ("cClefSquare", ⟨"\uE060", none, none, none, none, none, none⟩),
  ("fClef", ⟨"\uE062", some true, none, none, none, none, none⟩),
  ("unpitchedPercussionClef1", ⟨"\uE069", none, none, none, none, none, none⟩),
  ("unpitchedPercussionClef2", ⟨"\uE06A", none, none, none, none, none, none⟩)]

/-- Part 2 of the definition table (entries in source order). -/
def DEFINITIONS_2 : List (String × MungClassDefinition) := [
  ("semipitchedPercussionClef1", ⟨"\uE06B", none, none, none, none, none, none⟩),
  ("semipitchedPercussionClef2", ⟨"\uE06C", none, none, none, none, none, none⟩),
  ("6stringTabClef", ⟨"\uE06D", none, none, none, none, none, none⟩),
  ("4stringTabClef", ⟨"\uE06E", none, none, none, none, none, none⟩),
  ("gClefChange", ⟨"\uE07A", none, none, none, none, none, none⟩),
  ("cClefChange", ⟨"\uE07B", none, none, none, none, none, none⟩),
  ("fClefChange", ⟨"\uE07C", none, none, none, none, none, none⟩),
  ("clef8", ⟨"\uE07D", none, none, none, none, none, none⟩),
  ("clef15", ⟨"\uE07E", none, none, none, none, none, none⟩),
  ("timeSignature", ⟨"\uF5FC", some true, some (.bool true), none, some true, none, none⟩),
  ("timeSig0", ⟨"\uE080", none, none, none, none, none, none⟩),
  ("timeSig1", ⟨"\uE081", none, none, none, none, none, none⟩),
  ("timeSig2", ⟨"\uE082", none, none, none, none, none, none⟩),
  ("timeSig3", ⟨"\uE083", none, none, none, none, none, none⟩),
  ("timeSig4", ⟨"\uE084", none, none, none, none, none, none⟩),
  ("timeSig5", ⟨"\uE085", none, none, none, none, none, none⟩),
  ("timeSig6", ⟨"\uE086", none, none, none, none, none, none⟩),
  ("timeSig7", ⟨"\uE087", none, none, none, none, none, none⟩),
  ("timeSig8", ⟨"\uE088", none, none, none, none, none, none⟩),
  ("timeSig9", ⟨"\uE089", none, none, none, none, none, none⟩),
  ("timeSigCommon", ⟨"\uE08A", some true, none, none, none, none, none⟩),
  ("mensuralProlationCombiningDot", ⟨"\uE914", some true, none, none, none, none, none⟩),
  ("timeSigCutCommon", ⟨"\uE08B", some true, none, none, none, none, none⟩),
  ("timeSigSlash", ⟨"\uEC84", none, none, none, none, none, none⟩),
  ("timeSigFractionalSlash", ⟨"\uE08E", none, none, none, none, none, none⟩),
  ("timeSigPlus", ⟨"\uE08C", none, none, none, none, none, none⟩),
  ("timeSigEquals", ⟨"\uE08F", none, none, none, none, none, none⟩),
  ("timeSigMinus", ⟨"\uE090", none, none, none, none, none, none⟩),
  ("timeSigMultiply", ⟨"\uE091", none, none, none, none, none, none⟩),
  ("timeSigX", ⟨"\uE09C", none, none, none, none, none, none⟩),
  ("noteheadDoubleWhole", ⟨"\uE0A0", none, none, none, none, none, none⟩),
  ("noteheadDoubleWholeSquare", ⟨"\uE0A1", none, none, none, none, none, none⟩),
  ("noteheadWhole", ⟨"\uE0A2", some true, none, none, none, none, none⟩),
  ("noteheadHalf", ⟨"\uE0A3", some true, none, none, none, none, none⟩),
  ("noteheadBlack", ⟨"\uE0A4", none, none, none, none, none, none⟩),
  ("noteheadFull", ⟨"\uE0A4", some true, some (.bool true), some ["noteheadBlack"], none, none, none⟩),
  ("noteheadXBlack", ⟨"\uE0A9", none, none, none, none, none, none⟩),
  ("noteheadXOrnate", ⟨"\uE0AA", none, none, none, none, none, none⟩),
  ("noteheadWholeSmall", ⟨"\uE0A2", none, none, none, none, none, none⟩),
  ("noteheadHalfSmall", ⟨"\uE0A3", some true, none, none, none, none, none⟩)]

/-- Part 3 of the definition table (entries in source order). -/
def DEFINITIONS_3 : List (String × MungClassDefinition) := [
  ("noteheadBlackSmall", ⟨"\uE0A4", none, none, none, none, none, none⟩),
  ("noteheadFullSmall", ⟨"\uE0A4", some true, some (.bool true), some ["noteheadBlackSmall"], none, none, none⟩),
  ("noteheadSlashVerticalEnds", ⟨"\uE100", none, none, none, none, none, none⟩),
  ("noteheadSlashHorizontalEnds", ⟨"\uE101", none, none, none, none, none, none⟩),
  ("noteheadSlashWhiteWhole", ⟨"\uE102", none, none, none, none, none, none⟩),
  ("noteheadSlashWhiteHalf", ⟨"\uE103", none, none, none, none, none, none⟩),
  ("augmentationDot", ⟨"\uE1E7", some true, none, none, none, none, none⟩),
  ("stem", ⟨"\uE210", some true, none, none, none, none, none⟩),
  ("tremoloBeam", ⟨"\uE1F1 \uE1FA\uE1F1", none, some (.bool true), none, none, some "Cannot be rendered using a font", none⟩),
  ("tremoloMark", ⟨"\uE1F1 \uE1FA\uE1F1", some true, some (.bool true), none, none, none, none⟩),
  ("multipleNoteTremolo", ⟨"\uE1F1 \uE1FA\uE1F1", some true, some (.bool true), none, none, none, none⟩),
  ("singleNoteTremolo", ⟨"\uE220", some true, some (.bool true), none, none, none, none⟩),
  ("tremolo1", ⟨"\uE220", none, none, none, none, none, none⟩),
  ("tremolo2", ⟨"\uE221", none, none, none, none, none, none⟩),
  ("tremolo3", ⟨"\uE222", none, none, none, none, none, none⟩),
  ("tremolo4", ⟨"\uE223", none, none, none, none, none, none⟩),
  ("tremolo5", ⟨"\uE224", none, none, none, none, none, none⟩),
  ("buzzRoll", ⟨"\uE22A", none, none, none, none, none, none⟩),
  ("flag8thUp", ⟨"\uE1D7", some true, none, none, none, none, none⟩),
  ("flag8thDown", ⟨"\uE1D8", some true, none, none, none, none, none⟩),
  ("flag16thUp", ⟨"\uE1D9", some true, none, none, none, none, none⟩),
  ("flag16thDown", ⟨"\uE1DA", some true, none, none, none, none, none⟩),
  ("flag32ndUp", ⟨"\uE1DB", some true, none, none, none, none, none⟩),
  ("flag32ndDown", ⟨"\uE1DC", some true, none, none, none, none, none⟩),
  ("flag64thUp", ⟨"\uE1DD", some true, none, none, none, none, none⟩),
  ("flag64thDown", ⟨"\uE1DE", some true, none, none, none, none, none⟩),
  ("flag128thUp", ⟨"\uE1DF", none, none, none, none, none, none⟩),
  ("flag128thDown", ⟨"\uE1E0", none, none, none, none, none, none⟩),
  ("flag256thUp", ⟨"\uE1E1", none, none, none, none, none, none⟩),
  ("flag256thDown", ⟨"\uE1E2", none, none, none, none, none, none⟩),
  ("flag512thUp", ⟨"\uE1E3", none, none, none, none, none, none⟩),
  ("flag512thDown", ⟨"\uE1E4", none, none, none, none, none, none⟩),
  ("flag1024thUp", ⟨"\uE1E5", none, none, none, none, none, none⟩),
  ("flag1024thDown", ⟨"\uE1E6", none, none, none, none, none, none⟩),
  ("keySignature", ⟨"\uE269", some true, some (.bool true), none, some true, none, none⟩),
  ("accidentalFlat", ⟨"\uE260", some true, none, none, none, none, none⟩),
  ("accidentalNatural", ⟨"\uE261", some true, none, none, none, none, none⟩),
  ("accidentalSharp", ⟨"\uE262", some true, none, none, none, none, none⟩),
  ("accidentalDoubleSharp", ⟨"\uE263", some true, none, none, none, none, none⟩),
  ("accidentalDoubleFlat", ⟨"\uE264", some true, none, none, none, none, none⟩)]

/-- Part 4 of the definition table (entries in source order). -/
def DEFINITIONS_4 : List (String × MungClassDefinition) := [
  ("accidentalTripleSharp", ⟨"\uE265", none, none, none, none, none, none⟩),
  ("accidentalTripleFlat", ⟨"\uE266", none, none, none, none, none, none⟩),
  ("accidentalNaturalFlat", ⟨"\uE267", none, none, none, none, none, none⟩),
  ("accidentalNaturalSharp", ⟨"\uE268", none, none, none, none, none, none⟩),
  ("accidentalSharpSharp", ⟨"\uE269", none, none, none, none, none, none⟩),
  ("accidentalParensLeft", ⟨"\uE26A", none, none, none, none, none, none⟩),
  ("accidentalParensRight", ⟨"\uE26B", none, none, none, none, none, none⟩),
  ("accidentalBracketLeft", ⟨"\uE26C", none, none, none, none, none, none⟩),
  ("accidentalBracketRight", ⟨"\uE26D", none, none, none, none, none, none⟩),
  ("double_sharp", ⟨"\uE263", some true, some (.bool true), some ["accidentalDoubleSharp"], none, none, none⟩),
  ("double_flat", ⟨"\uE264", some true, some (.bool true), some ["accidentalDoubleFlat"], none, none, none⟩),
  ("articulationAccent", ⟨"\uE4A0", some true, some (.bool true), some ["articAccentAbove", "articAccentBelow"], none, none, none⟩),
  ("articulationMarcatoAbove", ⟨"\uE4AC", some true, some (.bool true), some ["articMarcatoAbove"], none, none, none⟩),
  ("articulationMarcatoBelow", ⟨"\uE4AD", some true, some (.bool true), some ["articMarcatoBelow"], none, none, none⟩),
  ("articulationStaccato", ⟨"\uE4A2", some true, some (.bool true), some ["articStaccatoAbove", "articStaccatoBelow"], none, none, none⟩),
  ("articulationTenuto", ⟨"\uE4A4", some true, some (.bool true), some ["articTenutoAbove", "articTenutoBelow"], none, none, none⟩),
  ("articAccentAbove", ⟨"\uE4A0", none, none, none, none, none, none⟩),
  ("articAccentBelow", ⟨"\uE4A1", none, none, none, none, none, none⟩),
  ("articStaccatoAbove", ⟨"\uE4A2", none, none, none, none, none, none⟩),
  ("articStaccatoBelow", ⟨"\uE4A3", none, none, none, none, none, none⟩),
  ("articTenutoAbove", ⟨"\uE4A4", none, none, none, none, none, none⟩),
  ("articTenutoBelow", ⟨"\uE4A5", none, none, none, none, none, none⟩),
  ("articStaccatissimoAbove", ⟨"\uE4A6", none, none, none, none, none, none⟩),
  ("articStaccatissimoBelow", ⟨"\uE4A7", none, none, none, none, none, none⟩),
  ("articMarcatoAbove", ⟨"\uE4AC", none, none, none, none, none, none⟩),
  ("articMarcatoBelow", ⟨"\uE4AD", none, none, none, none, none, none⟩),
  ("breathMark", ⟨"\uE4CE", some true, some (.bool true), some ["breathMarkComma", "breathMarkTick", "breathMarkUpbow"], none, none, none⟩),
  ("fermataAbove", ⟨"\uE4C0", some true, none, none, none, none, none⟩),
  ("fermataBelow", ⟨"\uE4C1", some true, none, none, none, none, none⟩),
  ("breathMarkComma", ⟨"\uE4CE", none, none, none, none, none, none⟩),
  ("breathMarkTick", ⟨"\uE4CF", none, none, none, none, none, none⟩),
  ("breathMarkUpbow", ⟨"\uE4D0", none, none, none, none, none, none⟩),
  ("caesura", ⟨"\uE4D1", none, none, none, none, none, none⟩),
  ("restLonga", ⟨"\uE01A\u00A0\u00A0\uE4E1", none, none, none, none, none, none⟩),
  ("restDoubleWhole", ⟨"\uE01A\u00A0\u00A0\uE4E2", none, none, none, none, none, none⟩),
  ("restBreve", ⟨"\uE01A\u00A0\u00A0\uE4E2", none, some (.bool true), some ["restDoubleWhole"], none, none, none⟩),
  ("restWhole", ⟨"\uE01A\u00A0\u00A0\uE4E3", some true, none, none, none, none, none⟩),
  ("restSemibreve", ⟨"\uE01A\u00A0\u00A0\uE4E3", none, some (.bool true), some ["restWhole"], none, none, none⟩),
  ("restHalf", ⟨"\uE01A\u00A0\u00A0\uE4E4", some true, none, none, none, none, none⟩),
  ("restMinim", ⟨"\uE01A\u00A0\u00A0\uE4E4", none, some (.bool true), some ["restHalf"], none, none, none⟩)]

/-- Part 5 of the definition table (entries in source order). -/
def DEFINITIONS_5 : List (String × MungClassDefinition) := [
  ("restQuarter", ⟨"\uE4E5", some true, none, none, none, none, none⟩),
  ("restCrotchet", ⟨"\uE4E5", none, some (.bool true), some ["restQuarter"], none, none, none⟩),
  ("rest8th", ⟨"\uE4E6", some true, none, none, none, none, none⟩),
  ("restQuaver", ⟨"\uE4E6", none, some (.bool true), some ["rest8th"], none, none, none⟩),
  ("rest16th", ⟨"\uE4E7", some true, none, none, none, none, none⟩),
  ("restSemiquaver", ⟨"\uE4E7", none, some (.bool true), some ["rest16th"], none, none, none⟩),
  ("rest32nd", ⟨"\uE4E8", some true, none, none, none, none, none⟩),
  ("restDemisemiquaver", ⟨"\uE4E8", none, some (.bool true), some ["rest32nd"], none, none, none⟩),
  ("rest64th", ⟨"\uE4E9", some true, none, none, none, none, none⟩),
  ("rest128th", ⟨"\uE4EA", none, none, none, none, none, none⟩),
  ("rest256th", ⟨"\uE4EB", none, none, none, none, none, none⟩),
  ("rest512th", ⟨"\uE4EC", none, none, none, none, none, none⟩),
  ("rest1024th", ⟨"\uE4ED", none, none, none, none, none, none⟩),
  ("restHBar", ⟨"\uE4EE", none, none, none, none, none, none⟩),
  ("restText", ⟨"R", none, some (.bool true), none, none, none, some true⟩),
  ("multiMeasureRest", ⟨"\uE4EE", some true, some (.bool true), some ["restHBar"], none, none, none⟩),
  ("repeat1Bar", ⟨"\uE500", some true, none, none, none, none, none⟩),
  ("repeatOneBar", ⟨"\uE500", none, some (.bool true), some ["repeat1Bar"], none, none, none⟩),
  ("repeat2Bars", ⟨"\uE501", none, none, none, none, none, none⟩),
  ("repeat4Bars", ⟨"\uE502", none, none, none, none, none, none⟩),
  ("repeatBarUpperDot", ⟨"\uE503", none, none, none, none, none, none⟩),
  ("repeatBarSlash", ⟨"\uE504", none, none, none, none, none, none⟩),
  ("repeatBarLowerDot", ⟨"\uE505", none, none, none, none, none, none⟩),
  ("unisonoText", ⟨"col.", none, some (.bool true), none, none, none, some true⟩),
  ("unisonoContinuation", ⟨"\uE00A", none, some (.bool true), none, none, none, none⟩),
  ("transpositionText", ⟨"\uE510", some true, some (.bool true), some ["ottava"], none, none, some true⟩),
  ("ottava", ⟨"\uE510", none, none, none, none, none, none⟩),
  ("ottavaAlta", ⟨"\uE511", none, none, none, none, none, none⟩),
  ("ottavaBassa", ⟨"\uE512", none, none, none, none, none, none⟩),
  ("ottavaBassaBa", ⟨"\uE513", none, none, none, none, none, none⟩),
  ("dynamicsText", ⟨"\uE52D", some true, some (.bool true), none, some true, none, some true⟩),
  ("dynamicPiano", ⟨"\uE520", none, none, none, none, none, none⟩),
  ("dynamicMezzo", ⟨"\uE521", none, none, none, none, none, none⟩),
  ("dynamicForte", ⟨"\uE522", none, none, none, none, none, none⟩),
  ("dynamicRinforzando", ⟨"\uE523", none, none, none, none, none, none⟩),
  ("dynamicSforzando", ⟨"\uE524", none, none, none, none, none, none⟩),
  ("dynamicZ", ⟨"\uE525", none, none, none, none, none, none⟩),
  ("dynamicNiente", ⟨"\uE526", none, none, none, none, none, none⟩),
  ("dynamicCrescendo", ⟨"cres.", none, some (.bool true), none, none, none, some true⟩),
  ("dynamicCrescendoSpanner", ⟨"_\u00A0_", none, some (.bool true), none, none, some "Cannot be rendered using a font", none⟩)]

/-- Part 6 of the definition table (entries in source order). -/
def DEFINITIONS_6 : List (String × MungClassDefinition) := [
  ("dynamicDiminuendo", ⟨"dim.", none, some (.bool true), none, none, none, some true⟩),
  ("dynamicDiminuendoSpanner", ⟨"_\u00A0_", none, some (.bool true), none, none, some "Cannot be rendered using a font", none⟩),
  ("dynamicCrescendoHairpin", ⟨"\uE53E", some true, none, none, none, none, none⟩),
  ("dynamicDiminuendoHairpin", ⟨"\uE53F", some true, none, none, none, none, none⟩),
  ("dynamicNienteForHairpin", ⟨"\uE541", none, none, none, none, none, none⟩),
  ("dynamicLetterF", ⟨"\uE522", some true, some (.bool true), some ["dynamicForte"], none, none, none⟩),
  ("dynamicLetterM", ⟨"\uE521", some true, some (.bool true), some ["dynamicMezzo"], none, none, none⟩),
  ("dynamicLetterN", ⟨"\uE526", some true, some (.bool true), some ["dynamicNiente"], none, none, none⟩),
  ("dynamicLetterP", ⟨"\uE520", some true, some (.bool true), some ["dynamicPiano"], none, none, none⟩),
  ("dynamicLetterR", ⟨"\uE523", some true, some (.bool true), some ["dynamicRinforzando"], none, none, none⟩),
  ("dynamicLetterS", ⟨"\uE524", some true, some (.bool true), some ["dynamicSforzando"], none, none, none⟩),
  ("dynamicLetterZ", ⟨"\uE525", some true, some (.bool true), some ["dynamicZ"], none, none, none⟩),
  ("lyricsText", ⟨"ly", some true, some (.bool true), none, none, none, some true⟩),
  ("verseNumber", ⟨"1.", none, some (.bool true), none, none, none, some true⟩),
  ("lyricsUnisono", ⟨"\uE00A", none, some (.bool true), none, none, none, none⟩),
  ("tempoText", ⟨"te", some true, some (.bool true), none, none, some "Possibly a composite object", some true⟩),
  ("tempoRitardando", ⟨"rit.", some false, some (.bool true), none, none, none, some true⟩),
  ("tempoRitardandoSpanner", ⟨"_\u00A0_", none, some (.bool true), none, none, some "Cannot be rendered using a font", none⟩),
  ("tempoAccelerando", ⟨"acc.", some false, some (.bool true), none, none, none, some true⟩),
  ("tempoAccelerandoSpanner", ⟨"_\u00A0_", none, some (.bool true), none, none, some "Cannot be rendered using a font", none⟩),
  ("tempoATempo", ⟨"a tempo", some false, some (.bool true), none, none, none, some true⟩),
  ("interpretationText", ⟨"in", none, some (.bool true), none, none, none, some true⟩),
  ("metadataText", ⟨"M", none, some (.bool true), none, none, none, some true⟩),
  ("measureNumber", ⟨"mn", none, some (.bool true), none, none, none, some true⟩),
  ("pageNumber", ⟨"pn", none, some (.bool true), none, none, none, some true⟩),
  ("otherText", ⟨"T", some true, some (.bool true), none, none, none, some true⟩),
  ("ornament", ⟨"\uE56F", some true, some (.bool true), none, none, some "Generinc unspecified ornament", none⟩),
  ("graceNoteSlashStemUp", ⟨"\uE560", none, none, none, none, none, none⟩),
  ("graceNoteSlashStemDown", ⟨"\uE561", none, none, none, none, none, none⟩),
  ("ornamentTrill", ⟨"\uE566", some true, none, none, none, none, none⟩),
  ("ornamentTurn", ⟨"\uE567", none, none, none, none, none, none⟩),
  ("ornamentTurnInverted", ⟨"\uE568", none, none, none, none, none, none⟩),
  ("ornamentTurnSlash", ⟨"\uE569", none, none, none, none, none, none⟩),
  ("ornamentTurnUp", ⟨"\uE56A\x7d", none, none, none, none, none, none⟩),
  ("ornamentTurnUpS", ⟨"\uE56B", none, none, none, none, none, none⟩),
  ("ornamentShortTrill", ⟨"\uE56C", none, none, none, none, none, none⟩),
  ("ornamentMordent", ⟨"\uE56D", none, none, none, none, none, none⟩),
  ("ornamentTremblement", ⟨"\uE56E", none, none, none, none, none, none⟩),
  ("ornamentHaydn", ⟨"\uE56F", none, none, none, none, none, none⟩),
  ("arpeggio", ⟨"\uE63C", some true, some (.bool true), some ["arpeggiato"], none, none, none⟩)]

/-- Part 7 of the definition table (entries in source order). -/
def DEFINITIONS_7 : List (String × MungClassDefinition) := [
  ("arpeggiato", ⟨"\uE63C", none, none, none, none, none, none⟩),
  ("arpeggiatoUp", ⟨"\uE634", none, none, none, none, none, none⟩),
  ("arpeggiatoDown", ⟨"\uE635", none, none, none, none, none, none⟩),
  ("tuplet", ⟨"\uE1F0\uE201\uE1F0\uE202\uE1F0\uE203", some true, some (.bool true), none, some true, none, none⟩),
  ("tupletBracket", ⟨"\uE201 \uE203", some true, some (.bool true), none, none, some "Cannot be rendered using a font", none⟩),
  ("tuplet0", ⟨"\uE880", none, none, none, none, none, none⟩),
  ("tuplet1", ⟨"\uE881", none, none, none, none, none, none⟩),
  ("tuplet2", ⟨"\uE882", none, none, none, none, none, none⟩),
  ("tuplet3", ⟨"\uE883", none, none, none, none, none, none⟩),
  ("tuplet4", ⟨"\uE884", none, none, none, none, none, none⟩),
  ("tuplet5", ⟨"\uE885", none, none, none, none, none, none⟩),
  ("tuplet6", ⟨"\uE886", none, none, none, none, none, none⟩),
  ("tuplet7", ⟨"\uE887", none, none, none, none, none, none⟩),
  ("tuplet8", ⟨"\uE888", none, none, none, none, none, none⟩),
  ("tuplet9", ⟨"\uE889", none, none, none, none, none, none⟩),
  ("tupletColon", ⟨"\uE88A", none, none, none, none, none, none⟩),
  ("beam", ⟨"\uE1F0\uE1F2", some true, some (.bool true), none, none, some "Cannot be rendered using a font", none⟩),
  ("slur", ⟨"\uE4BB", some true, some (.bool true), none, none, some "Cannot be rendered using a font", none⟩),
  ("tie", ⟨"\uE4BB", some true, some (.bool true), none, none, some "Cannot be rendered using a font", none⟩),
  ("figuredBassText", ⟨"B", some true, some (.bool true), none, none, some "Possibly a composite object", some true⟩),
  ("wiggleTrill", ⟨"\uEAA4\uEAA4\uEAA4", some true, none, none, none, none, none⟩),
  ("dottedHorizontalSpanner", ⟨"_\u00A0_", some true, none, none, none, none, none⟩),
  ("horizontalSpanner", ⟨"_", some true, none, none, none, none, none⟩),
  ("glissando", ⟨"/", some true, none, none, none, none, none⟩),
  ("characterCapitalA", ⟨"A", some true, some (.bool true), none, none, none, none⟩),
  ("characterCapitalB", ⟨"B", some true, some (.bool true), none, none, none, none⟩),
  ("characterCapitalC", ⟨"C", some true, some (.bool true), none, none, none, none⟩),
  ("characterCapitalD", ⟨"D", some true, some (.bool true), none, none, none, none⟩),
  ("characterCapitalE", ⟨"E", some true, some (.bool true), none, none, none, none⟩),
  ("characterCapitalF", ⟨"F", some true, some (.bool true), none, none, none, none⟩),
  ("characterCapitalG", ⟨"G", some true, some (.bool true), none, none, none, none⟩),
  ("characterCapitalH", ⟨"H", some true, some (.bool true), none, none, none, none⟩),
  ("characterCapitalI", ⟨"I", some true, some (.bool true), none, none, none, none⟩),
  ("characterCapitalJ", ⟨"J", some true, some (.bool true), none, none, none, none⟩),
  ("characterCapitalK", ⟨"K", some true, some (.bool true), none, none, none, none⟩),
  ("characterCapitalL", ⟨"L", some true, some (.bool true), none, none, none, none⟩),
  ("characterCapitalM", ⟨"M", some true, some (.bool true), none, none, none, none⟩),
  ("characterCapitalN", ⟨"N", some true, some (.bool true), none, none, none, none⟩),
  ("characterCapitalO", ⟨"O", some true, some (.bool true), none, none, none, none⟩),
  ("characterCapitalP", ⟨"P", some true, some (.bool true), none, none, none, none⟩)]

/-- Part 8 of the definition table (entries in source order). -/
def DEFINITIONS_8 : List (String × MungClassDefinition) := [
  ("characterCapitalQ", ⟨"Q", some true, some (.bool true), none, none, none, none⟩),
  ("characterCapitalR", ⟨"R", some true, some (.bool true), none, none, none, none⟩),
  ("characterCapitalS", ⟨"S", some true, some (.bool true), none, none, none, none⟩),
  ("characterCapitalT", ⟨"T", some true, some (.bool true), none, none, none, none⟩),
  ("characterCapitalU", ⟨"U", some true, some (.bool true), none, none, none, none⟩),
  ("characterCapitalV", ⟨"V", some true, some (.bool true), none, none, none, none⟩),
  ("characterCapitalW", ⟨"W", some true, some (.bool true), none, none, none, none⟩),
  ("characterCapitalX", ⟨"X", some true, some (.bool true), none, none, none, none⟩),
  ("characterCapitalY", ⟨"Y", some true, some (.bool true), none, none, none, none⟩),
  ("characterCapitalZ", ⟨"Z", some true, some (.bool true), none, none, none, none⟩),
  ("characterSmallA", ⟨"a", some true, some (.bool true), none, none, none, none⟩),
  ("characterSmallB", ⟨"b", some true, some (.bool true), none, none, none, none⟩),
  ("characterSmallC", ⟨"c", some true, some (.bool true), none, none, none, none⟩),
  ("characterSmallD", ⟨"d", some true, some (.bool true), none, none, none, none⟩),
  ("characterSmallE", ⟨"e", some true, some (.bool true), none, none, none, none⟩),
  ("characterSmallF", ⟨"f", some true, some (.bool true), none, none, none, none⟩),
  ("characterSmallG", ⟨"g", some true, some (.bool true), none, none, none, none⟩),
  ("characterSmallH", ⟨"h", some true, some (.bool true), none, none, none, none⟩),
  ("characterSmallI", ⟨"i", some true, some (.bool true), none, none, none, none⟩),
  ("characterSmallJ", ⟨"j", some true, some (.bool true), none, none, none, none⟩),
  ("characterSmallK", ⟨"k", some true, some (.bool true), none, none, none, none⟩),
  ("characterSmallL", ⟨"l", some true, some (.bool true), none, none, none, none⟩),
  ("characterSmallM", ⟨"m", some true, some (.bool true), none, none, none, none⟩),
  ("characterSmallN", ⟨"n", some true, some (.bool true), none, none, none, none⟩),
  ("characterSmallO", ⟨"o", some true, some (.bool true), none, none, none, none⟩),
  ("characterSmallP", ⟨"p", some true, some (.bool true), none, none, none, none⟩),
  ("characterSmallQ", ⟨"q", some true, some (.bool true), none, none, none, none⟩),
  ("characterSmallR", ⟨"r", some true, some (.bool true), none, none, none, none⟩),
  ("characterSmallS", ⟨"s", some true, some (.bool true), none, none, none, none⟩),
  ("characterSmallT", ⟨"t", some true, some (.bool true), none, none, none, none⟩),
  ("characterSmallU", ⟨"u", some true, some (.bool true), none, none, none, none⟩),
  ("characterSmallV", ⟨"v", some true, some (.bool true), none, none, none, none⟩),
  ("characterSmallW", ⟨"w", some true, some (.bool true), none, none, none, none⟩),
  ("characterSmallX", ⟨"x", some true, some (.bool true), none, none, none, none⟩),
  ("characterSmallY", ⟨"y", some true, some (.bool true), none, none, none, none⟩),
  ("characterSmallZ", ⟨"z", some true, some (.bool true), none, none, none, none⟩),
  ("characterDot", ⟨".", some true, some (.bool true), none, none, none, none⟩),
  ("characterOther", ⟨"$", some true, some (.bool true), none, none, none, none⟩),
  ("numeral0", ⟨"0", some true, some (.bool true), none, none, none, none⟩),
  ("numeral1", ⟨"1", some true, some (.bool true), none, none, none, none⟩)]

/-- Part 9 of the definition table (entries in source order). -/
def DEFINITIONS_9 : List (String × MungClassDefinition) := [
  ("numeral2", ⟨"2", some true, some (.bool true), none, none, none, none⟩),
  ("numeral3", ⟨"3", some true, some (.bool true), none, none, none, none⟩),
  ("numeral4", ⟨"4", some true, some (.bool true), none, none, none, none⟩),
  ("numeral5", ⟨"5", some true, some (.bool true), none, none, none, none⟩),
  ("numeral6", ⟨"6", some true, some (.bool true), none, none, none, none⟩),
  ("numeral7", ⟨"7", some true, some (.bool true), none, none, none, none⟩),
  ("numeral8", ⟨"8", some true, some (.bool true), none, none, none, none⟩),
  ("numeral9", ⟨"9", some true, some (.bool true), none, none, none, none⟩),
  ("stemStructural", ⟨"\uE210", some false, some (.bool true), none, none, none, none⟩),
  ("stemStructuralPartial", ⟨"\uE210", some false, some (.bool true), none, none, none, none⟩),
  ("stemStructuralBridgeLeft", ⟨"\u2282", some false, some (.bool true), none, none, none, none⟩),
  ("stemStructuralBridgeRight", ⟨"\u2283", some false, some (.bool true), none, none, none, none⟩),
  ("flagStructuralUp", ⟨"\uE1D7", some false, some (.bool true), none, none, none, none⟩),
  ("flagStructuralDown", ⟨"\uE1D8", some false, some (.bool true), none, none, none, none⟩),
  ("slurStructuralDown", ⟨"\uE4BB", some false, some (.bool true), none, none, none, none⟩),
  ("slurStructuralUp", ⟨"\uE4BA", some false, some (.bool true), none, none, none, none⟩),
  ("beamStructural", ⟨"\uE1F0\uE1F2", some false, some (.bool true), none, none, none, none⟩),
  ("beamStructuralPartialLeft", ⟨"\uE1F0\uE1F7", some false, some (.bool true), none, none, none, none⟩),
  ("beamStructuralPartialRight", ⟨"\uE1F2", some false, some (.bool true), none, none, none, none⟩),
  ("beamStructuralPartialMiddle", ⟨"\uE1F2\uE1F7", some false, some (.bool true), none, none, none, none⟩),
  ("beamStructuralBridgeUp", ⟨"\u2229", some false, some (.bool true), none, none, none, none⟩),
  ("beamStructuralBridgeDown", ⟨"\u222A", some false, some (.bool true), none, none, none, none⟩),
  ("beamStructuralUnfoldingDown", ⟨"\u2571", some false, some (.bool true), none, none, none, none⟩),
  ("beamStructuralUnfoldingUp", ⟨"\u2572", some false, some (.bool true), none, none, none, none⟩),
  ("voiceExchangeDown", ⟨"\u2571", some false, some (.bool true), none, none, none, none⟩),
  ("voiceExchangeUp", ⟨"\u2572", some false, some (.bool true), none, none, none, none⟩),
  ("parensImpliedLeft", ⟨"(", some false, some (.bool true), none, none, none, none⟩),
  ("parensImpliedRight", ⟨")", some false, some (.bool true), none, none, none, none⟩),
  ("noteheadImplied", ⟨"(\uE0A4)", some false, some (.bool true), none, none, none, none⟩),
  ("noteheadOpenImplied", ⟨"(\uE0A3)", some false, some (.bool true), none, none, none, none⟩),
  ("scaleDegreeMark", ⟨"^", some false, some (.bool true), none, none, none, none⟩),
  ("characterColonDotUpper", ⟨"\u00B7", some false, some (.bool true), none, none, none, none⟩),
  ("characterColonDotLower", ⟨"\u00B7", some false, some (.bool true), none, none, none, none⟩),
  ("characterExclamation", ⟨"!", some false, some (.bool true), none, none, none, none⟩),
  ("characterHyphen", ⟨"\uE090", some false, some (.bool true), none, none, none, none⟩),
  ("characterEqual", ⟨"\uE08F", some false, some (.bool true), none, none, none, none⟩),
  ("braceAnalytical", ⟨"\u007B", some false, some (.bool true), none, none, none, none⟩),
  ("barlineStructuralDotted", ⟨"\u250A", some false, some (.bool true), none, none, none, none⟩),
  ("barlineStructuralDottedPartial", ⟨"\u2502", some false, some (.bool true), none, none, none, none⟩),
  ("keyAnalysis", ⟨"Gm:", some false, some (.bool true), none, none, none, none⟩)]

/-- Part 10 of the definition table (entries in source order). -/
def DEFINITIONS_10 : List (String × MungClassDefinition) := [
  ("analyticalI", ⟨"\u2160", some false, some (.bool true), none, none, none, none⟩),
  ("analyticalII", ⟨"\u2161", some false, some (.bool true), none, none, none, none⟩),
  ("analyticalIII", ⟨"\u2162", some false, some (.bool true), none, none, none, none⟩),
  ("analyticalIV", ⟨"\u2163", some false, some (.bool true), none, none, none, none⟩),
  ("analyticalV", ⟨"\u2164", some false, some (.bool true), none, none, none, none⟩),
  ("analyticalVI", ⟨"\u2165", some false, some (.bool true), none, none, none, none⟩),
  ("analyticalVII", ⟨"\u2166", some false, some (.bool true), none, none, none, none⟩),
  ("numeralRomanI", ⟨"\u2160", some false, some (.bool true), none, none, none, none⟩),
  ("numeralRomanII", ⟨"\u2161", some false, some (.bool true), none, none, none, none⟩),
  ("numeralRomanIII", ⟨"\u2162", some false, some (.bool true), none, none, none, none⟩),
  ("numeralRomanIV", ⟨"\u2163", some false, some (.bool true), none, none, none, none⟩),
  ("numeralRomanV", ⟨"\u2164", some false, some (.bool true), none, none, none, none⟩),
  ("numeralRomanVI", ⟨"\u2165", some false, some (.bool true), none, none, none, none⟩),
  ("numeralRomanVII", ⟨"\u2166", some false, some (.bool true), none, none, none, none⟩),
  ("secondaryHarmonyArrowRight", ⟨"\u21BA", some false, some (.bool true), none, none, none, none⟩),
  ("secondaryHarmonyArrowLeft", ⟨"\u21BB", some false, some (.bool true), none, none, none, none⟩),
  ("circleEmphasis", ⟨"\u25EF", some false, some (.bool true), none, none, none, none⟩),
  ("circleMeasureNumber", ⟨"\u25CB", some false, some (.bool true), none, none, none, none⟩)]

/-- The central definition table, transcribed entry by entry from the source
in source order, split into parts to keep elaboration fast. Each record
lists, positionally: uc, mpp, notSmufl, smuflEquivalents, container,
otherSmuflDivergenceJustification, transcribable. -/
def DEFINITIONS : List (String × MungClassDefinition) :=
  DEFINITIONS_1 ++ DEFINITIONS_2 ++ DEFINITIONS_3 ++ DEFINITIONS_4 ++ DEFINITIONS_5 ++ DEFINITIONS_6 ++ DEFINITIONS_7 ++ DEFINITIONS_8 ++ DEFINITIONS_9 ++ DEFINITIONS_10

/-- Keys of the definition table in source (insertion) order, as returned by
Object.keys. -/
def definitionKeys : List String := DEFINITIONS.map Prod.fst

/-- Boolean strict lexicographic comparison of character lists by code
point. -/
def charListLt : List Char → List Char → Bool
  | [], [] => false
  | [], _ :: _ => true
  | _ :: _, [] => false
  | a :: as, b :: bs =>
    if a < b then true
    else if b < a then false
    else charListLt as bs

/-- Strict lexicographic comparison of strings, the order JavaScript uses to
compare string keys (by code unit; identical to code-point order on the
characters occurring in the table). -/
def strLt (a b : String) : Bool := charListLt a.data b.data

/-- Non-strict comparator derived from strLt, used by the sort. -/
def strLe (a b : String) : Bool := !strLt b a

/-- Insertion of a name into an already sorted list of names. -/
def insertName (a : String) : List String → List String
  | [] => [a]
  | b :: l => if strLe a b then a :: b :: l else b :: insertName a l

/-- Sorting of the key array, embedding Array.prototype.sort() in the source:
the ascending lexicographic reordering of the (pairwise distinct) keys. -/
def sortNames : List String → List String
  | [] => []
  | a :: l => insertName a (sortNames l)

/-- Registry construction from a raw table: sort the keys ascending, then
parse each key with its definition. This is the whole computation of the
exported MUNG_CLASSES constant, parameterised by its input table. -/
def buildRegistry (defs : List (String × MungClassDefinition)) :
    List MungClass :=
  (sortNames (defs.map Prod.fst)).filterMap
    (fun k => (defs.lookup k).map (fun d => parseMungClassDefinition k d))

/-- List of all known mung classes, sorted by the class name alphabetically. -/
def MUNG_CLASSES : List MungClass := buildRegistry DEFINITIONS

/-- List of all known mung class names, sorted alphabetically. -/
def MUNG_CLASS_NAMES : List String := MUNG_CLASSES.map (fun mc => mc.className)

/-- One step of the dictionary-building reduce: a JavaScript property
assignment dict[mc.className] = mc, which overwrites an existing binding in
place and otherwise appends a new one. -/
def jsInsert (dict : List (String × MungClass)) (mc : MungClass) :
    List (String × MungClass) :=
  if dict.any (fun p => p.1 == mc.className) then
    dict.map (fun p => if p.1 == mc.className then (p.1, mc) else p)
  else
    dict ++ [(mc.className, mc)]

/-- Dictionary of all known mung classes, keyed by class name, built by the
reduce in the source. -/
def MUNG_CLASSES_BY_NAME : List (String × MungClass) :=
  MUNG_CLASSES.foldl jsInsert []

/-- Name lookup on the dictionary: property access MUNG_CLASSES_BY_NAME[name],
returning undefined (none) for an absent key. -/
def byName (name : String) : Option MungClass :=
  MUNG_CLASSES_BY_NAME.lookup name


/-- Boolean chain check: each adjacent pair of names strictly ascends. -/
def chainStrLt : List String → Bool
  | [] => true
  | [_] => true
  | a :: b :: l => strLt a b && chainStrLt (b :: l)

/-! ### Order lemmas for the embedded string comparison -/

theorem charListLt_irrefl : ∀ as : List Char, charListLt as as = false
  | [] => rfl
  | a :: as => by
    show (if a < a then true else if a < a then false else charListLt as as)
      = false
    rw [if_neg (lt_irrefl a), if_neg (lt_irrefl a)]
    exact charListLt_irrefl as

theorem charListLt_iff_lex :
    ∀ as bs : List Char, charListLt as bs = true ↔ List.Lex (· < ·) as bs
  | [], [] => ⟨fun h => (nomatch h), fun h => (nomatch h)⟩
  | [], _ :: _ => ⟨fun _ => List.Lex.nil, fun _ => rfl⟩
  | _ :: _, [] => ⟨fun h => (nomatch h), fun h => (nomatch h)⟩
  | a :: as, b :: bs => by
    show (if a < b then true else if b < a then false else charListLt as bs)
      = true ↔ List.Lex (· < ·) (a :: as) (b :: bs)
    by_cases hab : a < b
    · rw [if_pos hab]
      exact iff_of_true rfl (List.Lex.rel hab)
    · rw [if_neg hab]
      by_cases hba : b < a
      · rw [if_pos hba]
        refine iff_of_false Bool.false_ne_true ?_
        intro h
        cases h with
        | cons h' => exact lt_irrefl a hba
        | rel h' => exact hab h'
      · rw [if_neg hba]
        have heq : a = b := le_antisymm (le_of_not_lt hba) (le_of_not_lt hab)
        subst heq
        rw [charListLt_iff_lex as bs]
        constructor
        · exact fun h => List.Lex.cons h
        · intro h
          cases h with
          | cons h' => exact h'
          | rel h' => exact absurd h' hab

theorem charListLt_trans {as bs cs : List Char}
    (h1 : charListLt as bs = true) (h2 : charListLt bs cs = true) :
    charListLt as cs = true := by
  rw [charListLt_iff_lex] at h1 h2 ⊢
  exact Trans.trans h1 h2

/-- The Boolean comparison strLt agrees with the lexicographic order on
strings. -/
theorem strLt_iff (a b : String) : strLt a b = true ↔ a < b := by
  rw [String.lt_iff_toList_lt]
  exact charListLt_iff_lex a.data b.data

theorem strLt_trans {a b c : String} (h1 : strLt a b = true)
    (h2 : strLt b c = true) : strLt a c = true :=
  charListLt_trans h1 h2

theorem strLt_ne {a b : String} (h : strLt a b = true) : a ≠ b := by
  intro he
  subst he
  rw [show strLt a a = charListLt a.data a.data from rfl,
    charListLt_irrefl] at h
  cases h

/-! ### The sort permutes membership -/

theorem mem_insertName {x a : String} :
    ∀ l : List String, x ∈ insertName a l ↔ x = a ∨ x ∈ l
  | [] => by simp [insertName]
  | b :: l => by
    simp only [insertName]
    split
    · simp
    · simp only [List.mem_cons, mem_insertName l]
      tauto

theorem mem_sortNames {x : String} :
    ∀ l : List String, x ∈ sortNames l ↔ x ∈ l
  | [] => Iff.rfl
  | a :: l => by
    simp only [sortNames, mem_insertName, mem_sortNames l, List.mem_cons]

/-! ### Lookup and registry lemmas -/

theorem filterMap_id_of_forall_some {α : Type} {f : α → Option α} :
    ∀ l : List α, (∀ a ∈ l, f a = some a) → l.filterMap f = l
  | [], _ => rfl
  | a :: l, h => by
    rw [List.filterMap_cons, h a (List.mem_cons_self a l),
      filterMap_id_of_forall_some l (fun x hx => h x (List.mem_cons_of_mem a hx))]

theorem lookup_isSome_of_mem_keys {k : String} (h : k ∈ definitionKeys) :
    ∃ d, DEFINITIONS.lookup k = some d := by
  obtain ⟨p, hp, hpk⟩ := List.mem_map.mp h
  have hs : (DEFINITIONS.lookup k).isSome :=
    List.lookup_isSome_iff.mpr ⟨p, hp, beq_iff_eq.mpr hpk.symm⟩
  exact Option.isSome_iff_exists.mp hs

theorem mem_keys_of_lookup_some {k : String} {d : MungClassDefinition}
    (h : DEFINITIONS.lookup k = some d) : k ∈ definitionKeys := by
  have hs : (DEFINITIONS.lookup k).isSome := by rw [h]; rfl
  obtain ⟨p, hp, hbeq⟩ := List.lookup_isSome_iff.mp hs
  exact List.mem_map.mpr ⟨p, hp, (beq_iff_eq.mp hbeq).symm⟩

theorem pair_mem_of_lookup_some {k : String} {d : MungClassDefinition}
    (h : DEFINITIONS.lookup k = some d) : (k, d) ∈ DEFINITIONS := by
  obtain ⟨l₁, l₂, heq, -⟩ := List.lookup_eq_some_iff.mp h
  rw [heq]
  exact List.mem_append.mpr (Or.inr (List.mem_cons_self _ _))

/-- Membership in the registry: precisely the parses of looked-up
definitions. -/
theorem mem_MUNG_CLASSES_iff {mc : MungClass} :
    mc ∈ MUNG_CLASSES ↔ ∃ k d, DEFINITIONS.lookup k = some d ∧
      mc = parseMungClassDefinition k d := by
  show mc ∈ List.filterMap _ _ ↔ _
  rw [List.mem_filterMap]
  constructor
  · rintro ⟨k, -, hf⟩
    obtain ⟨d, hd, hparse⟩ := Option.map_eq_some'.mp hf
    exact ⟨k, d, hd, hparse.symm⟩
  · rintro ⟨k, d, hd, rfl⟩
    refine ⟨k, ?_, ?_⟩
    · exact (mem_sortNames _).mpr (mem_keys_of_lookup_some hd)
    · rw [hd]
      rfl

/-- The class names of the registry are exactly the sorted keys of the
table. -/
theorem map_className_MUNG_CLASSES :
    MUNG_CLASSES.map (fun mc => mc.className) = sortNames definitionKeys := by
  show (List.filterMap _ _).map _ = _
  rw [List.map_filterMap]
  apply filterMap_id_of_forall_some
  intro k hk
  obtain ⟨d, hd⟩ := lookup_isSome_of_mem_keys ((mem_sortNames _).mp hk)
  rw [hd]
  rfl

/-! ### The concrete sortedness fact and its consequences -/

instance : IsTrans String (fun a b => strLt a b = true) :=
  ⟨fun _ _ _ => strLt_trans⟩

theorem chainStrLt_iff :
    ∀ l : List String,
      chainStrLt l = true ↔ List.Chain' (fun a b => strLt a b = true) l
  | [] => by simp [chainStrLt]
  | [a] => by simp [chainStrLt]
  | a :: b :: l => by
    rw [show chainStrLt (a :: b :: l) = (strLt a b && chainStrLt (b :: l))
        from rfl,
      Bool.and_eq_true, chainStrLt_iff (b :: l), List.chain'_cons]

set_option maxRecDepth 4000000 in
set_option maxHeartbeats 16000000 in
/-- The sorted key list strictly ascends pairwise; checked by evaluation. -/
theorem sorted_keys_chainOk : chainStrLt (sortNames definitionKeys) = true := by
  rfl

theorem chain_pairwise (l : List String) (h : chainStrLt l = true) :
    List.Pairwise (fun a b => strLt a b = true) l :=
  List.chain'_iff_pairwise.mp ((chainStrLt_iff l).mp h)

theorem sorted_keys_pairwise :
    List.Pairwise (fun a b => strLt a b = true) (sortNames definitionKeys) :=
  chain_pairwise _ sorted_keys_chainOk

theorem sorted_keys_sorted : List.Sorted (· < ·) (sortNames definitionKeys) :=
  sorted_keys_pairwise.imp fun h => (strLt_iff _ _).mp h

theorem sorted_keys_nodup : (sortNames definitionKeys).Nodup :=
  sorted_keys_pairwise.imp fun h => strLt_ne h

theorem class_names_nodup :
    (MUNG_CLASSES.map (fun mc => mc.className)).Nodup := by
  rw [map_className_MUNG_CLASSES]
  exact sorted_keys_nodup

/-! ### Dictionary lemmas -/

/-- When all inserted names are fresh and mutually distinct, the
dictionary-building fold only ever appends. -/
theorem foldl_jsInsert_eq :
    ∀ (l : List MungClass) (dict : List (String × MungClass)),
      (∀ mc ∈ l, ∀ p ∈ dict, p.1 ≠ mc.className) →
      (l.map (fun mc => mc.className)).Nodup →
      l.foldl jsInsert dict = dict ++ l.map (fun mc => (mc.className, mc))
  | [], dict, _, _ => by simp
  | mc :: l, dict, hfresh, hnd => by
    have hany : dict.any (fun p => p.1 == mc.className) = false := by
      rw [List.any_eq_false]
      intro p hp
      rw [Bool.not_eq_true, beq_eq_false_iff_ne]
      exact hfresh mc (List.mem_cons_self _ _) p hp
    have hstep : jsInsert dict mc = dict ++ [(mc.className, mc)] := by
      unfold jsInsert
      rw [hany]
      rfl
    have hnd' := List.nodup_cons.mp (by rw [List.map_cons] at hnd; exact hnd)
    rw [List.foldl_cons, hstep,
      foldl_jsInsert_eq l (dict ++ [(mc.className, mc)]) ?_ hnd'.2,
      List.map_cons, List.append_assoc]
    · rfl
    · intro mc' hmc' p hp
      cases List.mem_append.mp hp with
      | inl hpd =>
        exact hfresh mc' (List.mem_cons_of_mem mc hmc') p hpd
      | inr hps =>
        rw [List.mem_singleton.mp hps]
        intro he
        have he' : mc.className = mc'.className := he
        apply hnd'.1
        rw [he']
        exact List.mem_map.mpr ⟨mc', hmc', rfl⟩

/-- The dictionary is the registry list, paired with its names. -/
theorem MUNG_CLASSES_BY_NAME_eq :
    MUNG_CLASSES_BY_NAME = MUNG_CLASSES.map (fun mc => (mc.className, mc)) := by
  show MUNG_CLASSES.foldl jsInsert [] = _
  rw [foldl_jsInsert_eq MUNG_CLASSES []
    (fun _ _ p hp => absurd hp (List.not_mem_nil p)) class_names_nodup]
  exact List.nil_append _

theorem lookup_map_pair (n : String) :
    ∀ l : List MungClass,
      (l.map (fun mc => (mc.className, mc))).lookup n
        = l.find? (fun mc => n == mc.className)
  | [] => rfl
  | mc :: l => by
    rw [List.map_cons, List.lookup_cons, List.find?_cons,
      lookup_map_pair n l]

/-- byName is the first (and, names being distinct, only) registry entry
with the requested name. -/
theorem byName_eq_find (n : String) :
    byName n = MUNG_CLASSES.find? (fun mc => n == mc.className) := by
  show MUNG_CLASSES_BY_NAME.lookup n = _
  rw [MUNG_CLASSES_BY_NAME_eq, lookup_map_pair]

theorem byName_className {n : String} {mc : MungClass}
    (h : byName n = some mc) : mc.className = n := by
  rw [byName_eq_find] at h
  have hp := List.find?_some h
  exact (beq_iff_eq.mp hp).symm

theorem byName_isSome_iff (n : String) :
    (byName n).isSome = true ↔ n ∈ MUNG_CLASSES.map (fun mc => mc.className) := by
  rw [byName_eq_find, List.find?_isSome, List.mem_map]
  constructor
  · rintro ⟨mc, hmc, hbeq⟩
    exact ⟨mc, hmc, (beq_iff_eq.mp hbeq).symm⟩
  · rintro ⟨mc, hmc, hcn⟩
    exact ⟨mc, hmc, beq_iff_eq.mpr hcn.symm⟩

theorem find?_eq_some_of_mem :
    ∀ {l : List MungClass} {mc : MungClass} {n : String},
      (l.map (fun mc => mc.className)).Nodup → mc ∈ l → mc.className = n →
      l.find? (fun mc => n == mc.className) = some mc
  | [], mc, n, _, hmem, _ => absurd hmem (List.not_mem_nil mc)
  | mc' :: l, mc, n, hnd, hmem, hcn => by
    rw [List.map_cons] at hnd
    have hnd' := List.nodup_cons.mp hnd
    rw [List.find?_cons]
    cases List.mem_cons.mp hmem with
    | inl he =>
      subst he
      rw [hcn, beq_self_eq_true]
    | inr hm =>
      have hne : (n == mc'.className) = false := by
        rw [beq_eq_false_iff_ne]
        intro he
        apply hnd'.1
        rw [← he, ← hcn]
        exact List.mem_map.mpr ⟨mc, hm, rfl⟩
      rw [hne]
      exact find?_eq_some_of_mem hnd'.2 hm hcn

/-- A registry member is retrievable by its own name. -/
theorem byName_of_mem {mc : MungClass} {n : String}
    (hmem : mc ∈ MUNG_CLASSES) (hcn : mc.className = n) :
    byName n = some mc := by
  rw [byName_eq_find]
  exact find?_eq_some_of_mem class_names_nodup hmem hcn

/-! ### Claim theorems -/

theorem truthyOptBool_eq_beq :
    ∀ ob : Option Bool, truthyOptBool ob = (ob == some true)
  | none => rfl
  | some true => rfl
  | some false => rfl

/-- C1: for every descriptor produced by the derivation, isSmufl true leaves
justifiedSmuflDivergence undefined (none); isSmufl false makes it some true
exactly when the descriptor is a container, is transcribable, or carries a
divergence justification, and some false otherwise. -/
theorem C1_justified_divergence_rule (cn : String) (d : MungClassDefinition) :
    ((parseMungClassDefinition cn d).isSmufl = true →
      (parseMungClassDefinition cn d).justifiedSmuflDivergence = none) ∧
    ((parseMungClassDefinition cn d).isSmufl = false →
      (((parseMungClassDefinition cn d).justifiedSmuflDivergence = some true) ↔
        ((parseMungClassDefinition cn d).isContainer = true ∨
         (parseMungClassDefinition cn d).isTranscribable = true ∨
         (parseMungClassDefinition cn d).otherSmuflDivergenceJustification.isSome
           = true)) ∧
      ((parseMungClassDefinition cn d).justifiedSmuflDivergence = some true ∨
       (parseMungClassDefinition cn d).justifiedSmuflDivergence = some false)) := by
  constructor
  · intro hs
    exact if_pos hs
  · intro hs
    have hs' : (!truthyNotSmufl d.notSmufl) = false := hs
    have hj : (parseMungClassDefinition cn d).justifiedSmuflDivergence
        = some (truthyOptBool d.container || (d.transcribable == some true)
          || d.otherSmuflDivergenceJustification.isSome) :=
      if_neg (by rw [hs']; exact Bool.false_ne_true)
    constructor
    · rw [hj]
      show some (truthyOptBool d.container || (d.transcribable == some true)
          || d.otherSmuflDivergenceJustification.isSome) = some true ↔
        truthyOptBool d.container = true ∨
          truthyOptBool d.transcribable = true ∨
          d.otherSmuflDivergenceJustification.isSome = true
      rw [Option.some_inj, truthyOptBool_eq_beq d.transcribable,
        Bool.or_eq_true, Bool.or_eq_true, or_assoc]
    · rw [hj]
      rcases Bool.eq_false_or_eq_true (truthyOptBool d.container
          || (d.transcribable == some true)
          || d.otherSmuflDivergenceJustification.isSome) with h | h
      · exact Or.inl (by rw [h])
      · exact Or.inr (by rw [h])

/-- C1 witness at the unclassified entry: isSmufl is false there, so the
derivation answers the divergence question. -/
theorem C1_witness :
    (parseMungClassDefinition "unclassified"
      ⟨"?", some true, some (.bool true), none, none, none, none⟩).justifiedSmuflDivergence
        = some true ∨
    (parseMungClassDefinition "unclassified"
      ⟨"?", some true, some (.bool true), none, none, none, none⟩).justifiedSmuflDivergence
        = some false :=
  ((C1_justified_divergence_rule "unclassified"
    ⟨"?", some true, some (.bool true), none, none, none, none⟩).2 rfl).2

/-- C2: the name list is the className image of the descriptor list, sorted
strictly ascending lexicographically, with no duplicates. -/
theorem C2_names_sorted_nodup :
    MUNG_CLASS_NAMES = MUNG_CLASSES.map (fun mc => mc.className) ∧
    List.Sorted (· < ·) MUNG_CLASS_NAMES ∧
    MUNG_CLASS_NAMES.Nodup := by
  refine ⟨rfl, ?_, ?_⟩
  · show List.Sorted (· < ·) (MUNG_CLASSES.map (fun mc => mc.className))
    rw [map_className_MUNG_CLASSES]
    exact sorted_keys_sorted
  · show (MUNG_CLASSES.map (fun mc => mc.className)).Nodup
    rw [map_className_MUNG_CLASSES]
    exact sorted_keys_nodup

/-- C3: looking up any key of the table returns a descriptor carrying exactly
that class name. -/
theorem C3_byName_of_key (n : String) (h : n ∈ definitionKeys) :
    ∃ mc, byName n = some mc ∧ mc.className = n := by
  have hmem : n ∈ MUNG_CLASSES.map (fun mc => mc.className) := by
    rw [map_className_MUNG_CLASSES]
    exact (mem_sortNames _).mpr h
  have hsome := (byName_isSome_iff n).mpr hmem
  obtain ⟨mc, hmc⟩ := Option.isSome_iff_exists.mp hsome
  exact ⟨mc, hmc, byName_className hmc⟩

/-- C3 witness at the key unclassified. -/
theorem C3_witness :
    ∃ mc, byName "unclassified" = some mc ∧ mc.className = "unclassified" :=
  C3_byName_of_key "unclassified" (by decide)

/-- C4: looking up any string that is not a key of the table returns the
absent sentinel none (and, being a total function, cannot throw). -/
theorem C4_byName_miss (n : String) (h : n ∉ definitionKeys) :
    byName n = none := by
  have hns : ¬ (byName n).isSome = true := by
    rw [byName_isSome_iff, map_className_MUNG_CLASSES, mem_sortNames]
    exact h
  exact Option.not_isSome_iff_eq_none.mp hns

/-- C4 witness at the name doesNotExist. -/
theorem C4_witness : byName "doesNotExist" = none :=
  C4_byName_miss "doesNotExist" (by decide)

/-- C5: isSmufl is the negation of the JavaScript truthiness of notSmufl:
true when the field is absent or false, false when it is true, and false when
it is a non-empty string. -/
theorem C5_isSmufl_negation (cn : String) (d : MungClassDefinition) :
    (parseMungClassDefinition cn d).isSmufl = !truthyNotSmufl d.notSmufl ∧
    ((d.notSmufl = none ∨ d.notSmufl = some (.bool false)) →
      (parseMungClassDefinition cn d).isSmufl = true) ∧
    (d.notSmufl = some (.bool true) →
      (parseMungClassDefinition cn d).isSmufl = false) ∧
    (∀ s : String, d.notSmufl = some (.str s) → s ≠ "" →
      (parseMungClassDefinition cn d).isSmufl = false) := by
  refine ⟨rfl, ?_, ?_, ?_⟩
  · rintro (h | h) <;>
      simp [parseMungClassDefinition, h, truthyNotSmufl, NotSmuflValue.truthy]
  · intro h
    simp [parseMungClassDefinition, h, truthyNotSmufl, NotSmuflValue.truthy]
  · intro s h hs
    simp [parseMungClassDefinition, h, truthyNotSmufl, NotSmuflValue.truthy, hs]

/-- C5 witness at the unclassified raw definition. -/
theorem C5_witness :
    (parseMungClassDefinition "unclassified"
      ⟨"?", some true, some (.bool true), none, none, none, none⟩).isSmufl
        = false :=
  (C5_isSmufl_negation "unclassified"
    ⟨"?", some true, some (.bool true), none, none, none, none⟩).2.2.1 rfl

/-- C6: the unclassified table entry is exactly as the claim describes it and
its derived descriptor has isSmufl false with justifiedSmuflDivergence
false. -/
theorem C6_unclassified :
    DEFINITIONS.lookup "unclassified"
      = some ⟨"?", some true, some (.bool true), none, none, none, none⟩ ∧
    ∃ mc, byName "unclassified" = some mc ∧
      mc.isSmufl = false ∧ mc.justifiedSmuflDivergence = some false := by
  refine ⟨rfl, parseMungClassDefinition "unclassified"
    ⟨"?", some true, some (.bool true), none, none, none, none⟩, ?_, rfl, rfl⟩
  apply byName_of_mem
  · exact mem_MUNG_CLASSES_iff.mpr ⟨"unclassified",
      ⟨"?", some true, some (.bool true), none, none, none, none⟩, rfl, rfl⟩
  · rfl

theorem equivalents_almost_keys :
    ∀ p ∈ DEFINITIONS, ∀ e ∈ p.2.smuflEquivalents.getD [],
      e = "staff5Lines" ∨ e ∈ definitionKeys := by decide

/-- C7 counterexample: the staff entry lists the equivalent staff5Lines,
which is not a key of the table, so the claimed invariant fails. -/
theorem C7_counterexample :
    ¬ ∀ mc ∈ MUNG_CLASSES, ∀ e ∈ mc.smuflEquivalents.getD [],
      e ∈ definitionKeys := by
  intro hall
  have hmem : parseMungClassDefinition "staff"
      ⟨"⠀", some true, none, some ["staff5Lines"], none, none, none⟩
      ∈ MUNG_CLASSES :=
    mem_MUNG_CLASSES_iff.mpr ⟨"staff",
      ⟨"⠀", some true, none, some ["staff5Lines"], none, none, none⟩,
      rfl, rfl⟩
  have hbad := hall _ hmem "staff5Lines" (List.mem_singleton.mpr rfl)
  exact absurd hbad (by decide)

/-- C7 amended: every name listed among a descriptor's smuflEquivalents is a
key of the table, except the single name staff5Lines (listed by the staff
entry), which is absent. -/
theorem C7_equivalents_are_keys (mc : MungClass) (hmc : mc ∈ MUNG_CLASSES)
    (e : String) (he : e ∈ mc.smuflEquivalents.getD []) :
    e = "staff5Lines" ∨ e ∈ definitionKeys := by
  obtain ⟨k, d, hd, rfl⟩ := mem_MUNG_CLASSES_iff.mp hmc
  exact equivalents_almost_keys (k, d) (pair_mem_of_lookup_some hd) e he

/-- C7 witness at the staff descriptor and its listed equivalent. -/
theorem C7_witness :
    "staff5Lines" = "staff5Lines" ∨ "staff5Lines" ∈ definitionKeys :=
  C7_equivalents_are_keys
    (parseMungClassDefinition "staff"
      ⟨"⠀", some true, none, some ["staff5Lines"], none, none, none⟩)
    (mem_MUNG_CLASSES_iff.mpr ⟨"staff",
      ⟨"⠀", some true, none, some ["staff5Lines"], none, none, none⟩,
      rfl, rfl⟩)
    "staff5Lines" (List.mem_singleton.mpr rfl)

/-- C8: registry construction is a pure, deterministic function of the raw
table: two runs on equal inputs give element-wise equal descriptor lists. -/
theorem C8_buildRegistry_deterministic
    (d1 d2 : List (String × MungClassDefinition)) (h : d1 = d2) :
    List.Forall₂ (fun a b => a = b) (buildRegistry d1) (buildRegistry d2) := by
  subst h
  exact List.forall₂_same.mpr (fun x _ => rfl)

/-- C8 witness: the two runs on the actual table agree element-wise. -/
theorem C8_witness :
    List.Forall₂ (fun a b => a = b)
      (buildRegistry DEFINITIONS) (buildRegistry DEFINITIONS) :=
  C8_buildRegistry_deterministic DEFINITIONS DEFINITIONS rfl

/-- C9: in the fixed table the notSmufl field is never a string: it is
either absent or the boolean true. -/
theorem C9_notSmufl_never_string :
    ∀ p ∈ DEFINITIONS,
      p.2.notSmufl = none ∨ p.2.notSmufl = some (.bool true) := by decide

/-- C9 witness at the first table entry. -/
theorem C9_witness :
    ("unclassified",
        (⟨"?", some true, some (.bool true), none, none, none, none⟩
          : MungClassDefinition)).2.notSmufl = none ∨
    ("unclassified",
        (⟨"?", some true, some (.bool true), none, none, none, none⟩
          : MungClassDefinition)).2.notSmufl = some (.bool true) :=
  C9_notSmufl_never_string
    ("unclassified", ⟨"?", some true, some (.bool true), none, none, none, none⟩)
    (by decide)

theorem parse_transcribable_ok :
    ∀ p ∈ DEFINITIONS,
      (parseMungClassDefinition p.1 p.2).isTranscribable = true →
      (parseMungClassDefinition p.1 p.2).isSmufl = false ∧
      (parseMungClassDefinition p.1 p.2).justifiedSmuflDivergence
        = some true := by decide

/-- C10: every transcribable descriptor of the registry diverges from SMuFL
and that divergence is justified. -/
theorem C10_transcribable_diverges (mc : MungClass) (hmc : mc ∈ MUNG_CLASSES)
    (ht : mc.isTranscribable = true) :
    mc.isSmufl = false ∧ mc.justifiedSmuflDivergence = some true := by
  obtain ⟨k, d, hd, rfl⟩ := mem_MUNG_CLASSES_iff.mp hmc
  exact parse_transcribable_ok (k, d) (pair_mem_of_lookup_some hd) ht

/-- C10 witness at the repeatText descriptor. -/
theorem C10_witness :
    (parseMungClassDefinition "repeatText"
      ⟨"D.C.", none, some (.bool true), none, none, none, some true⟩).isSmufl
        = false ∧
    (parseMungClassDefinition "repeatText"
      ⟨"D.C.", none, some (.bool true), none, none, none,
        some true⟩).justifiedSmuflDivergence = some true :=
  C10_transcribable_diverges _
    (mem_MUNG_CLASSES_iff.mpr ⟨"repeatText",
      ⟨"D.C.", none, some (.bool true), none, none, none, some true⟩, rfl, rfl⟩)
    rfl

end MungOntology
